import Mathlib

/-!
Shallow embedding of the strava-mcp-server core: the token lifecycle
manager (src/token-manager.ts), the caching HTTP client
(src/strava-client.ts), and the in-memory webhook event buffer
(src/index.ts, webhook variant).

Machine integers of the source (JavaScript numbers used as Unix
timestamps and counters) are modelled as `Int`/`Nat`; `fetch` responses
are passed in explicitly as data, and thrown exceptions are modelled
with `Except`/`Option` results.
-/

namespace StravaMCP

/-! ## Token manager (src/token-manager.ts) -/

/-- The mutable fields of `TokenManager`: `accessToken`, `refreshToken`,
`expiresAt` (Unix seconds). `clientId`/`clientSecret` are immutable and
do not affect the refresh state transition, so they are kept separate in
the constructor model below. -/
structure TokenState where
  accessToken : String
  refreshToken : String
  expiresAt : Int
  deriving DecidableEq

/-- A response of the upstream token endpoint: HTTP status, the body
read as text (used on the error path), and the parsed JSON fields
`access_token`, `refresh_token`, `expires_at` (used on the success
path). -/
structure RefreshResponse where
  status : Nat
  bodyText : String
  access_token : String
  refresh_token : String
  expires_at : Int
  deriving DecidableEq

/-- The `response.ok` predicate of fetch: status in the range 200-299. -/
def fetchOk (status : Nat) : Bool := 200 ≤ status && status < 300

/-- The error thrown by `TokenManager.refresh` on a non-2xx response:
`Failed to refresh token: ${response.status} ${error}`. -/
structure TokenError where
  status : Nat
  body : String
  deriving DecidableEq

/-- `TokenManager.refresh`: on a non-2xx response it throws (carrying
status and body text) before any field is assigned, so the state is
returned unchanged; on a 2xx response it assigns all three fields from
the parsed body. -/
def refreshStep (st : TokenState) (resp : RefreshResponse) :
    TokenState × Option TokenError :=
  if fetchOk resp.status then
    ({ accessToken := resp.access_token,
       refreshToken := resp.refresh_token,
       expiresAt := resp.expires_at }, none)
  else
    (st, some { status := resp.status, body := resp.bodyText })

/-- `const oneHour = 60 * 60` in `getValidToken`. -/
def oneHour : Int := 60 * 60

/-- Outcome of one `getValidToken` call: the final state, the number of
refresh requests issued to the network, and either the returned token or
the propagated refresh error. -/
structure GetTokenResult where
  state : TokenState
  refreshCalls : Nat
  result : Except TokenError String

/-- `TokenManager.getValidToken`: with `now` the current Unix time in
seconds, refresh exactly once when `now > expiresAt - oneHour` (the
refresh consuming the given network response), otherwise return the
stored access token unchanged. -/
def getValidToken (now : Int) (st : TokenState) (resp : RefreshResponse) :
    GetTokenResult :=
  if now > st.expiresAt - oneHour then
    match refreshStep st resp with
    | (st2, none) => { state := st2, refreshCalls := 1, result := .ok st2.accessToken }
    | (st2, some e) => { state := st2, refreshCalls := 1, result := .error e }
  else
    { state := st, refreshCalls := 0, result := .ok st.accessToken }

/-! ## Token manager constructor (src/token-manager.ts) -/

/-- The five environment variables the constructor reads; `none` models
an unset variable. -/
structure Env where
  STRAVA_ACCESS_TOKEN : Option String
  STRAVA_REFRESH_TOKEN : Option String
  STRAVA_EXPIRES_AT : Option String
  STRAVA_CLIENT_ID : Option String
  STRAVA_CLIENT_SECRET : Option String

/-- JavaScript `process.env.X || d`: an unset variable reads as
`undefined` and the empty string is falsy, so both fall back to `d`. -/
def jsOr (v : Option String) (d : String) : String :=
  match v with
  | some s => if s = "" then d else s
  | none => d

/-- JavaScript `parseInt` on the decimal strings this program feeds it
(a numeric env value or the fallback "0"); `none` models `NaN`. -/
def jsParseInt (s : String) : Option Int := s.toInt?

/-- The field values a successfully constructed `TokenManager` holds. -/
structure TokenManagerConfig where
  accessToken : String
  refreshToken : String
  expiresAt : Option Int
  clientId : String
  clientSecret : String
  deriving DecidableEq

/-- The error thrown by the constructor when required configuration is
missing. -/
structure ConfigError where
  message : String
  deriving DecidableEq

/-- The constructor of `TokenManager`: read the five env vars, each
defaulted to the empty string ("0" for the expiry) when unset or empty,
then throw if client id or secret is empty,
then throw if access or refresh token is empty. The expiry value is
never checked. -/
def TokenManager.construct (env : Env) : Except ConfigError TokenManagerConfig :=
  let accessToken := jsOr env.STRAVA_ACCESS_TOKEN ""
  let refreshToken := jsOr env.STRAVA_REFRESH_TOKEN ""
  let expiresAt := jsParseInt (jsOr env.STRAVA_EXPIRES_AT "0")
  let clientId := jsOr env.STRAVA_CLIENT_ID ""
  let clientSecret := jsOr env.STRAVA_CLIENT_SECRET ""
  if clientId = "" ∨ clientSecret = "" then
    .error { message := "STRAVA_CLIENT_ID and STRAVA_CLIENT_SECRET must be set" }
  else if accessToken = "" ∨ refreshToken = "" then
    .error { message := "STRAVA_ACCESS_TOKEN and STRAVA_REFRESH_TOKEN must be set. Run setup-auth.ts first." }
  else
    .ok { accessToken := accessToken, refreshToken := refreshToken,
          expiresAt := expiresAt, clientId := clientId, clientSecret := clientSecret }

/-- Whether an `Except` computation succeeded. -/
def isOkE {ε α : Type} : Except ε α → Bool
  | .ok _ => true
  | .error _ => false

/-! ## Caching client (src/strava-client.ts) -/

/-- `private cacheDuration = 5 * 60 * 1000` (milliseconds). -/
def cacheDuration : Int := 5 * 60 * 1000

/-- One value of the cache map: `{ data, timestamp }` with the
timestamp in milliseconds (`Date.now()`). -/
structure CacheEntry (α : Type) where
  data : α
  timestamp : Int
  deriving DecidableEq

/-- The `Map<string, CacheEntry>` held by `StravaClient`, as an
association list in insertion order. -/
abbrev Cache (α : Type) := List (String × CacheEntry α)

/-- JavaScript `Map.get`. -/
def mapGet {β : Type} (m : List (String × β)) (k : String) : Option β :=
  (m.find? (fun p => p.1 == k)).map (·.2)

/-- JavaScript `Map.set`: update in place when the key exists, append
otherwise. -/
def mapSet {β : Type} (m : List (String × β)) (k : String) (v : β) :
    List (String × β) :=
  if m.any (fun p => p.1 == k) then
    m.map (fun p => if p.1 == k then (k, v) else p)
  else
    m ++ [(k, v)]

/-- The cache read performed by `request`: `this.cache.get(cacheKey)`
followed by the freshness test `Date.now() - cached.timestamp <
this.cacheDuration`; stale or absent entries read as a miss. -/
def cacheGet {α : Type} (cache : Cache α) (key : String) (nowMs : Int) : Option α :=
  match mapGet cache key with
  | some e => if nowMs - e.timestamp < cacheDuration then some e.data else none
  | none => none

/-- The cache write performed by `request`:
`this.cache.set(cacheKey, { data, timestamp: Date.now() })`. -/
def cachePut {α : Type} (cache : Cache α) (key : String) (v : α) (nowMs : Int) :
    Cache α :=
  mapSet cache key { data := v, timestamp := nowMs }

/-- A response of an upstream data endpoint: HTTP status, the body read
as text (used on the error path), and the parsed JSON body of type `α`
(used on the success path). -/
structure DataResponse (α : Type) where
  status : Nat
  bodyText : String
  body : α
  deriving DecidableEq

/-- Errors a `request` call can propagate: a failed token refresh, or a
non-2xx upstream data response (`Strava API error: ${status} ${text}`). -/
inductive RequestError where
  | refreshFailed (e : TokenError)
  | upstream (status : Nat) (body : String)
  deriving DecidableEq

/-- Outcome of one `request` call: final cache, final credential store,
the number of `getValidToken` invocations, the number of data fetches
issued, the number of refresh requests issued, and the returned payload
or propagated error. -/
structure RequestResult (α : Type) where
  cache : Cache α
  tokenState : TokenState
  tokenCalls : Nat
  fetchCalls : Nat
  refreshCalls : Nat
  result : Except RequestError α

/-- The network portion of `StravaClient.request`, reached when the
cache is bypassed or misses: obtain a token via `getValidToken`
(propagating its error), issue the fetch, throw on non-2xx before any
cache write, and on 2xx store the parsed body (when `useCache`) and
return it. `getValidToken` computes its clock as
`Math.floor(Date.now() / 1000)`. -/
def requestFetch {α : Type} (nowMs : Int) (st : TokenState) (cache : Cache α)
    (endpoint : String) (useCache : Bool)
    (refreshResp : RefreshResponse) (dataResp : DataResponse α) : RequestResult α :=
  let g := getValidToken (Int.fdiv nowMs 1000) st refreshResp
  match g.result with
  | .error e =>
      { cache := cache, tokenState := g.state, tokenCalls := 1, fetchCalls := 0,
        refreshCalls := g.refreshCalls, result := .error (.refreshFailed e) }
  | .ok _ =>
      if fetchOk dataResp.status then
        { cache := if useCache then cachePut cache endpoint dataResp.body nowMs else cache,
          tokenState := g.state, tokenCalls := 1, fetchCalls := 1,
          refreshCalls := g.refreshCalls, result := .ok dataResp.body }
      else
        { cache := cache, tokenState := g.state, tokenCalls := 1, fetchCalls := 1,
          refreshCalls := g.refreshCalls,
          result := .error (.upstream dataResp.status dataResp.bodyText) }

/-- `StravaClient.request(endpoint, useCache)`: when `useCache` is set,
a fresh cache entry for the endpoint key is returned immediately, with
no token check and no fetch; otherwise fall through to the network
path. -/
def request {α : Type} (nowMs : Int) (st : TokenState) (cache : Cache α)
    (endpoint : String) (useCache : Bool)
    (refreshResp : RefreshResponse) (dataResp : DataResponse α) : RequestResult α :=
  if useCache then
    match cacheGet cache endpoint nowMs with
    | some d =>
        { cache := cache, tokenState := st, tokenCalls := 0, fetchCalls := 0,
          refreshCalls := 0, result := .ok d }
    | none => requestFetch nowMs st cache endpoint useCache refreshResp dataResp
  else
    requestFetch nowMs st cache endpoint useCache refreshResp dataResp

/-! ## Webhook event buffer (src/index.ts, webhook variant) -/

/-- One entry of `recentEvents`: `timestamp` is `Date.now()` at receipt
(milliseconds) and `eventTime` is the upstream event time converted to
milliseconds. -/
structure WebhookEvent where
  type : String
  activityId : Int
  athleteId : Int
  timestamp : Int
  eventTime : Int
  deriving DecidableEq

/-- `addWebhookEvent`: unshift the new event onto the front of the list
(converting `eventTime` seconds to milliseconds), then pop the last
element when the length exceeds 100. -/
def addWebhookEvent (events : List WebhookEvent) (ty : String)
    (activityId athleteId : Int) (eventTime : Int) (nowMs : Int) :
    List WebhookEvent :=
  let events2 : List WebhookEvent :=
    { type := ty, activityId := activityId, athleteId := athleteId,
      timestamp := nowMs, eventTime := eventTime * 1000 } :: events
  if events2.length > 100 then events2.dropLast else events2

/-- The arguments of one `addWebhookEvent` call, with the `Date.now()`
reading it observes. -/
structure AddCall where
  type : String
  activityId : Int
  athleteId : Int
  eventTime : Int
  nowMs : Int

/-- A sequence of `addWebhookEvent` calls applied to the initially
empty `recentEvents` list. -/
def runAdds (calls : List AddCall) : List WebhookEvent :=
  calls.foldl
    (fun es c => addWebhookEvent es c.type c.activityId c.athleteId c.eventTime c.nowMs)
    []

/-- The `strava_get_recent_events` handler:
`const limit = args?.limit || 10` followed by
`recentEvents.slice(0, Math.min(limit, 100))`; a `limit` of 0 is falsy
in JavaScript and also falls back to 10. -/
def getRecentEvents (limit : Option Nat) (events : List WebhookEvent) :
    List WebhookEvent :=
  let l : Nat :=
    match limit with
    | none => 10
    | some n => if n = 0 then 10 else n
  events.take (min l 100)

/-- The buffer is ordered newest-first: timestamps never increase along
the list. -/
def newestFirst (es : List WebhookEvent) : Prop :=
  es.Pairwise (fun a b => b.timestamp ≤ a.timestamp)

end StravaMCP

namespace StravaMCP

/-! ## Theorems for the token manager claims -/

/-- Claim C1: for every credential state and clock value with
`now ≤ expiresAt - 3600` seconds, `getValidToken` returns the stored
access token unchanged, performs no refresh call, and leaves the
credential store unmodified. -/
theorem getValidToken_fresh (now : Int) (st : TokenState) (resp : RefreshResponse)
    (h : now ≤ st.expiresAt - 3600) :
    getValidToken now st resp =
      { state := st, refreshCalls := 0, result := .ok st.accessToken } := by
  have hng : ¬ now > st.expiresAt - oneHour := by
    simp only [oneHour]
    omega
  simp [getValidToken, hng]

/-- Witness for C1 at a concrete fresh token. -/
theorem getValidToken_fresh_witness :
    (1000 : Int) ≤ 10000 - 3600 ∧
    getValidToken 1000 ⟨"tok", "ref", 10000⟩ ⟨200, "", "newA", "newR", 0⟩ =
      { state := ⟨"tok", "ref", 10000⟩, refreshCalls := 0, result := .ok "tok" } :=
  ⟨by decide, getValidToken_fresh 1000 ⟨"tok", "ref", 10000⟩ ⟨200, "", "newA", "newR", 0⟩ (by decide)⟩

/-- Claim C2: for every credential state and clock value with
`now > expiresAt - 3600` seconds, `getValidToken` issues exactly one
refresh request, and when that refresh response is 2xx the returned
token equals the `access_token` field of the response. -/
theorem getValidToken_expiring (now : Int) (st : TokenState) (resp : RefreshResponse)
    (h : now > st.expiresAt - 3600) :
    (getValidToken now st resp).refreshCalls = 1 ∧
    (fetchOk resp.status = true →
      (getValidToken now st resp).result = .ok resp.access_token) := by
  have hgt : now > st.expiresAt - oneHour := by
    simp only [oneHour]
    omega
  by_cases hok : fetchOk resp.status
  · simp [getValidToken, refreshStep, hgt, hok]
  · simp [getValidToken, refreshStep, hgt, hok]

/-- Witness for C2 at a concrete expiring token and a 2xx refresh. -/
theorem getValidToken_expiring_witness :
    (10000 : Int) > 10000 - 3600 ∧
    ((getValidToken 10000 ⟨"tok", "ref", 10000⟩ ⟨200, "", "newA", "newR", 99999⟩).refreshCalls = 1 ∧
     (fetchOk (⟨200, "", "newA", "newR", 99999⟩ : RefreshResponse).status = true →
       (getValidToken 10000 ⟨"tok", "ref", 10000⟩ ⟨200, "", "newA", "newR", 99999⟩).result =
         .ok (⟨200, "", "newA", "newR", 99999⟩ : RefreshResponse).access_token)) :=
  ⟨by decide, getValidToken_expiring 10000 ⟨"tok", "ref", 10000⟩ ⟨200, "", "newA", "newR", 99999⟩ (by decide)⟩

/-- Claim C3: when the refresh handshake receives a non-2xx response,
`refresh` fails with an error carrying the upstream status and the body
text, and the credential store keeps all three of its pre-refresh
values. -/
theorem refresh_failure_preserves_state (st : TokenState) (resp : RefreshResponse)
    (h : fetchOk resp.status = false) :
    refreshStep st resp = (st, some { status := resp.status, body := resp.bodyText }) := by
  simp [refreshStep, h]

/-- Witness for C3 at a concrete 401 refresh response. -/
theorem refresh_failure_preserves_state_witness :
    fetchOk (⟨401, "bad token", "x", "y", 7⟩ : RefreshResponse).status = false ∧
    refreshStep ⟨"tok", "ref", 5⟩ ⟨401, "bad token", "x", "y", 7⟩ =
      (⟨"tok", "ref", 5⟩, some { status := 401, body := "bad token" }) :=
  ⟨by decide, refresh_failure_preserves_state ⟨"tok", "ref", 5⟩ ⟨401, "bad token", "x", "y", 7⟩ (by decide)⟩

/-- Claim C4: for every credential state and 2xx refresh response, after
the refresh the store holds exactly the `access_token`, `refresh_token`
and `expires_at` parsed from the response: all three fields are replaced
together, so a rotated refresh token is what the store holds afterward. -/
theorem refresh_success_replaces_state (st : TokenState) (resp : RefreshResponse)
    (h : fetchOk resp.status = true) :
    refreshStep st resp =
      ({ accessToken := resp.access_token, refreshToken := resp.refresh_token,
         expiresAt := resp.expires_at }, none) := by
  simp [refreshStep, h]

/-- Witness for C4 at a concrete 200 response carrying a rotated
refresh token. -/
theorem refresh_success_replaces_state_witness :
    fetchOk (⟨200, "", "newA", "rotatedR", 77⟩ : RefreshResponse).status = true ∧
    refreshStep ⟨"oldA", "oldR", 5⟩ ⟨200, "", "newA", "rotatedR", 77⟩ =
      ({ accessToken := "newA", refreshToken := "rotatedR", expiresAt := 77 }, none) :=
  ⟨by decide, refresh_success_replaces_state ⟨"oldA", "oldR", 5⟩ ⟨200, "", "newA", "rotatedR", 77⟩ (by decide)⟩

/-- Claim C5 counterexample: an environment with client id, client
secret, access token and refresh token set but `STRAVA_EXPIRES_AT`
absent makes the constructor succeed, so absence of the initial expiry
timestamp is not a constructor failure. -/
theorem construct_missing_expiry_succeeds :
    isOkE (TokenManager.construct
      { STRAVA_ACCESS_TOKEN := some "a", STRAVA_REFRESH_TOKEN := some "r",
        STRAVA_EXPIRES_AT := none, STRAVA_CLIENT_ID := some "c",
        STRAVA_CLIENT_SECRET := some "s" }) = true := by
  rfl

/-- Claim C5 (amended): the constructor succeeds exactly when client
identifier, client secret, initial access token and initial refresh
token are each present and nonempty; the initial expiry timestamp is
never checked (when absent it defaults to 0). -/
theorem construct_ok_iff (env : Env) :
    isOkE (TokenManager.construct env) = true ↔
      (jsOr env.STRAVA_CLIENT_ID "" ≠ "" ∧ jsOr env.STRAVA_CLIENT_SECRET "" ≠ "" ∧
       jsOr env.STRAVA_ACCESS_TOKEN "" ≠ "" ∧ jsOr env.STRAVA_REFRESH_TOKEN "" ≠ "") := by
  unfold TokenManager.construct
  by_cases h1 : jsOr env.STRAVA_CLIENT_ID "" = "" <;>
    by_cases h2 : jsOr env.STRAVA_CLIENT_SECRET "" = "" <;>
      by_cases h3 : jsOr env.STRAVA_ACCESS_TOKEN "" = "" <;>
        by_cases h4 : jsOr env.STRAVA_REFRESH_TOKEN "" = "" <;>
          simp [isOkE, h1, h2, h3, h4]

end StravaMCP

namespace StravaMCP

/-! ## Helper lemmas for the client and buffer claims -/

/-- When the refresh response is 2xx, `getValidToken` always succeeds,
returning the access token of its final state, and issues at most one
refresh request. -/
theorem getValidToken_result_ok (now : Int) (st : TokenState) (resp : RefreshResponse)
    (h : fetchOk resp.status = true) :
    (getValidToken now st resp).result = .ok (getValidToken now st resp).state.accessToken ∧
    (getValidToken now st resp).refreshCalls ≤ 1 := by
  unfold getValidToken
  split
  · simp [refreshStep, h]
  · simp

/-- Replacing the value at a present key leaves that key findable with
the new value. -/
theorem findMapReplace {β : Type} (m : List (String × β)) (k : String) (v : β)
    (h : m.any (fun p => p.1 == k) = true) :
    (m.map (fun p => if p.1 == k then (k, v) else p)).find? (fun p => p.1 == k) =
      some (k, v) := by
  induction m with
  | nil => simp at h
  | cons p rest ih =>
    rw [List.map_cons]
    by_cases hp : p.1 = k
    · have hpb : (p.1 == k) = true := beq_iff_eq.mpr hp
      rw [if_pos hpb]
      exact List.find?_cons_of_pos _ (by simp)
    · have hpb : (p.1 == k) = false := beq_eq_false_iff_ne.mpr hp
      have h2 : rest.any (fun p => p.1 == k) = true := by
        simp only [List.any_cons, Bool.or_eq_true] at h
        rcases h with hx | hx
        · rw [hpb] at hx
          exact absurd hx (by simp)
        · exact hx
      rw [if_neg (by simp [hpb]), List.find?_cons_of_neg _ (by simp [hpb])]
      exact ih h2

/-- Appending a binding for an absent key makes that key findable with
the appended value. -/
theorem findAppendReplace {β : Type} (m : List (String × β)) (k : String) (v : β)
    (h : m.any (fun p => p.1 == k) = false) :
    (m ++ [(k, v)]).find? (fun p => p.1 == k) = some (k, v) := by
  induction m with
  | nil => simp
  | cons p rest ih =>
    simp only [List.any_cons, Bool.or_eq_false_iff] at h
    obtain ⟨hp, hrest⟩ := h
    simp [List.cons_append, List.find?_cons, hp, ih hrest]

/-- `Map.set` followed by `Map.get` at the same key observes the value
just stored, whatever the prior contents of the map. -/
theorem mapGet_mapSet_self {β : Type} (m : List (String × β)) (k : String) (v : β) :
    mapGet (mapSet m k v) k = some v := by
  unfold mapGet mapSet
  by_cases h : m.any (fun p => p.1 == k) = true
  · rw [if_pos h, findMapReplace m k v h]
    rfl
  · have h2 : m.any (fun p => p.1 == k) = false := by
      cases hx : m.any (fun p => p.1 == k) with
      | false => rfl
      | true => exact absurd hx h
    rw [if_neg h, findAppendReplace m k v h2]
    rfl

/-- The network path of `request` under a 2xx refresh (when one is
needed) and a non-2xx data response: the upstream error is thrown
before any cache write. -/
theorem requestFetch_upstream_error {α : Type} (nowMs : Int) (st : TokenState)
    (cache : Cache α) (endpoint : String) (useCache : Bool)
    (refreshResp : RefreshResponse) (dataResp : DataResponse α)
    (hrefresh : fetchOk refreshResp.status = true)
    (hdata : fetchOk dataResp.status = false) :
    requestFetch nowMs st cache endpoint useCache refreshResp dataResp =
      { cache := cache,
        tokenState := (getValidToken (Int.fdiv nowMs 1000) st refreshResp).state,
        tokenCalls := 1, fetchCalls := 1,
        refreshCalls := (getValidToken (Int.fdiv nowMs 1000) st refreshResp).refreshCalls,
        result := .error (.upstream dataResp.status dataResp.bodyText) } := by
  obtain ⟨hres, -⟩ := getValidToken_result_ok (Int.fdiv nowMs 1000) st refreshResp hrefresh
  simp only [requestFetch]
  rw [hres]
  simp [hdata]

/-- Adding one event to a buffer within the bound keeps it within the
bound. -/
theorem addWebhookEvent_length_le (es : List WebhookEvent) (ty : String)
    (aid thid et nowMs : Int) (h : es.length ≤ 100) :
    (addWebhookEvent es ty aid thid et nowMs).length ≤ 100 := by
  simp only [addWebhookEvent]
  split
  · simpa using h
  · rename_i hc
    simp only [List.length_cons, gt_iff_lt, not_lt] at hc
    simpa using hc

/-- Any sequence of adds starting from the empty buffer stays within
the 100-event bound. -/
theorem runAdds_length_le (calls : List AddCall) : (runAdds calls).length ≤ 100 := by
  have key : ∀ (cs : List AddCall) (es : List WebhookEvent), es.length ≤ 100 →
      (cs.foldl
        (fun es c => addWebhookEvent es c.type c.activityId c.athleteId c.eventTime c.nowMs)
        es).length ≤ 100 := by
    intro cs
    induction cs with
    | nil => intro es h; simpa using h
    | cons c rest ih =>
        intro es h
        exact ih _ (addWebhookEvent_length_le es c.type c.activityId c.athleteId c.eventTime c.nowMs h)
  simpa [runAdds] using key calls [] (by simp)

/-- Adding an event no older than everything in a newest-first buffer
keeps the buffer newest-first. -/
theorem addWebhookEvent_newestFirst (es : List WebhookEvent) (ty : String)
    (aid thid et nowMs : Int) (hs : newestFirst es)
    (hb : ∀ ev ∈ es, ev.timestamp ≤ nowMs) :
    newestFirst (addWebhookEvent es ty aid thid et nowMs) := by
  have hcons : ((⟨ty, aid, thid, nowMs, et * 1000⟩ : WebhookEvent) :: es).Pairwise
      (fun a b => b.timestamp ≤ a.timestamp) :=
    List.pairwise_cons.mpr ⟨fun b hbmem => hb b hbmem, hs⟩
  unfold newestFirst
  simp only [addWebhookEvent]
  split
  · exact hcons.sublist (List.dropLast_sublist _)
  · exact hcons

/-- Each add prepends: the head of the buffer after an add is the
event just added, with its event time converted to milliseconds. -/
theorem addWebhookEvent_head (es : List WebhookEvent) (ty : String)
    (aid thid et nowMs : Int) :
    (addWebhookEvent es ty aid thid et nowMs).head? =
      some { type := ty, activityId := aid, athleteId := thid,
             timestamp := nowMs, eventTime := et * 1000 } := by
  simp only [addWebhookEvent]
  split
  · rename_i hc
    cases es with
    | nil => simp at hc
    | cons b bs => rfl
  · rfl

/-! ## Theorems for the client and buffer claims -/

/-- Claim C6: when the cache holds an entry for the endpoint key whose
age is below the TTL, `request` with `useCache = true` returns the
cached payload with zero token-manager invocations, zero fetches, zero
refreshes, and both the credential store and the cache unchanged. -/
theorem request_cache_hit {α : Type} (nowMs : Int) (st : TokenState) (cache : Cache α)
    (endpoint : String) (refreshResp : RefreshResponse) (dataResp : DataResponse α)
    (d : α) (h : cacheGet cache endpoint nowMs = some d) :
    request nowMs st cache endpoint true refreshResp dataResp =
      { cache := cache, tokenState := st, tokenCalls := 0, fetchCalls := 0,
        refreshCalls := 0, result := .ok d } := by
  simp [request, h]

/-- Witness for C6 at a concrete fresh cache entry. -/
theorem request_cache_hit_witness :
    cacheGet ([("/athlete", { data := "v", timestamp := 0 })] : Cache String) "/athlete" 1000 =
      some "v" ∧
    request 1000 ⟨"tok", "ref", 10000⟩
        ([("/athlete", { data := "v", timestamp := 0 })] : Cache String) "/athlete" true
        ⟨200, "", "a", "r", 0⟩ ⟨200, "", "body"⟩ =
      { cache := [("/athlete", { data := "v", timestamp := 0 })],
        tokenState := ⟨"tok", "ref", 10000⟩, tokenCalls := 0, fetchCalls := 0,
        refreshCalls := 0, result := .ok "v" } :=
  ⟨by decide,
   request_cache_hit 1000 ⟨"tok", "ref", 10000⟩
     ([("/athlete", { data := "v", timestamp := 0 })] : Cache String) "/athlete"
     ⟨200, "", "a", "r", 0⟩ ⟨200, "", "body"⟩ "v" (by decide)⟩

/-- Claim C7: on a non-2xx upstream data response (reaching the
network, with any needed refresh succeeding), `request` fails with an
error carrying the response status and its body text, leaves the cache
exactly as it was (failed responses are never memoized), issues exactly
one fetch (no retry), and at most one refresh. -/
theorem request_non2xx_preserves_cache {α : Type} (nowMs : Int) (st : TokenState)
    (cache : Cache α) (endpoint : String) (useCache : Bool)
    (refreshResp : RefreshResponse) (dataResp : DataResponse α)
    (hmiss : useCache = true → cacheGet cache endpoint nowMs = none)
    (hrefresh : fetchOk refreshResp.status = true)
    (hdata : fetchOk dataResp.status = false) :
    (request nowMs st cache endpoint useCache refreshResp dataResp).result =
      .error (.upstream dataResp.status dataResp.bodyText) ∧
    (request nowMs st cache endpoint useCache refreshResp dataResp).cache = cache ∧
    (request nowMs st cache endpoint useCache refreshResp dataResp).fetchCalls = 1 ∧
    (request nowMs st cache endpoint useCache refreshResp dataResp).refreshCalls ≤ 1 := by
  obtain ⟨-, hcalls⟩ := getValidToken_result_ok (Int.fdiv nowMs 1000) st refreshResp hrefresh
  have hfetch := requestFetch_upstream_error nowMs st cache endpoint useCache
    refreshResp dataResp hrefresh hdata
  cases useCache with
  | true =>
      have hm := hmiss rfl
      simp [request, hm, hfetch, hcalls]
  | false =>
      simp [request, hfetch, hcalls]

/-- Witness for C7 at a concrete 404 data response over an empty
cache. -/
theorem request_non2xx_witness :
    ((true : Bool) = true → cacheGet ([] : Cache String) "/x" 5000000 = none) ∧
    fetchOk (⟨200, "", "a", "r", 99⟩ : RefreshResponse).status = true ∧
    fetchOk (⟨404, "not found", "ignored"⟩ : DataResponse String).status = false ∧
    ((request 5000000 ⟨"tok", "ref", 10000⟩ ([] : Cache String) "/x" true
        ⟨200, "", "a", "r", 99⟩ ⟨404, "not found", "ignored"⟩).result =
      .error (.upstream 404 "not found") ∧
     (request 5000000 ⟨"tok", "ref", 10000⟩ ([] : Cache String) "/x" true
        ⟨200, "", "a", "r", 99⟩ ⟨404, "not found", "ignored"⟩).cache = [] ∧
     (request 5000000 ⟨"tok", "ref", 10000⟩ ([] : Cache String) "/x" true
        ⟨200, "", "a", "r", 99⟩ ⟨404, "not found", "ignored"⟩).fetchCalls = 1 ∧
     (request 5000000 ⟨"tok", "ref", 10000⟩ ([] : Cache String) "/x" true
        ⟨200, "", "a", "r", 99⟩ ⟨404, "not found", "ignored"⟩).refreshCalls ≤ 1) :=
  ⟨fun _ => rfl, by decide, by decide,
   request_non2xx_preserves_cache 5000000 ⟨"tok", "ref", 10000⟩ ([] : Cache String) "/x" true
     ⟨200, "", "a", "r", 99⟩ ⟨404, "not found", "ignored"⟩ (fun _ => rfl) (by decide) (by decide)⟩

/-- Claim C8: storing `v` under `k` and reading `k` back before the TTL
has elapsed returns exactly `v`, for every prior cache content; the put
overwrites any prior entry for `k` with the fresh timestamp. -/
theorem cache_roundtrip {α : Type} (cache : Cache α) (k : String) (v : α)
    (tPut tGet : Int) (h : tGet - tPut < cacheDuration) :
    cacheGet (cachePut cache k v tPut) k tGet = some v ∧
    mapGet (cachePut cache k v tPut) k = some { data := v, timestamp := tPut } := by
  have hm := mapGet_mapSet_self cache k ({ data := v, timestamp := tPut } : CacheEntry α)
  refine ⟨?_, hm⟩
  simp [cacheGet, cachePut, hm, h]

/-- Witness for C8 at a concrete key, payload, prior entry and
timestamps. -/
theorem cache_roundtrip_witness :
    (100 : Int) - 40 < cacheDuration ∧
    (cacheGet (cachePut ([("k", { data := 1, timestamp := 5 })] : Cache Nat) "k" 7 40) "k" 100 =
        some 7 ∧
     mapGet (cachePut ([("k", { data := 1, timestamp := 5 })] : Cache Nat) "k" 7 40) "k" =
        some { data := 7, timestamp := 40 }) :=
  ⟨by decide,
   cache_roundtrip ([("k", { data := 1, timestamp := 5 })] : Cache Nat) "k" 7 40 100 (by decide)⟩

/-- Claim C9: once the TTL has elapsed since the put, a read of the key
reports a miss even though the stale entry is still present in the map
(expired entries are skipped on read, not removed). -/
theorem cache_expiry {α : Type} (cache : Cache α) (k : String) (v : α)
    (tPut tGet : Int) (h : cacheDuration ≤ tGet - tPut) :
    cacheGet (cachePut cache k v tPut) k tGet = none ∧
    mapGet (cachePut cache k v tPut) k = some { data := v, timestamp := tPut } := by
  have hm := mapGet_mapSet_self cache k ({ data := v, timestamp := tPut } : CacheEntry α)
  have hlt : ¬ tGet - tPut < cacheDuration := by omega
  refine ⟨?_, hm⟩
  simp [cacheGet, cachePut, hm, hlt]

/-- Witness for C9 at a concrete put and a read five minutes later. -/
theorem cache_expiry_witness :
    cacheDuration ≤ (400040 : Int) - 40 ∧
    (cacheGet (cachePut ([] : Cache Nat) "k" 7 40) "k" 400040 = none ∧
     mapGet (cachePut ([] : Cache Nat) "k" 7 40) "k" = some { data := 7, timestamp := 40 }) :=
  ⟨by decide, cache_expiry ([] : Cache Nat) "k" 7 40 400040 (by decide)⟩

/-- Claim C10: the webhook buffer holds at most 100 events after any
sequence of adds from empty; each add keeps a bounded buffer bounded,
prepends the new event (newest-first, with the event time converted to
milliseconds), and preserves the newest-first ordering; the
`strava_get_recent_events` tool returns the first `min(limit, 100)`
events, defaulting the limit to 10 when absent. -/
theorem webhook_buffer_invariant (calls : List AddCall) (es : List WebhookEvent)
    (ty : String) (aid thid et nowMs : Int) (n : Nat)
    (hlen : es.length ≤ 100) (hsorted : newestFirst es)
    (hbound : ∀ ev ∈ es, ev.timestamp ≤ nowMs) (hn : 0 < n) :
    (runAdds calls).length ≤ 100 ∧
    (addWebhookEvent es ty aid thid et nowMs).length ≤ 100 ∧
    (addWebhookEvent es ty aid thid et nowMs).head? =
      some { type := ty, activityId := aid, athleteId := thid,
             timestamp := nowMs, eventTime := et * 1000 } ∧
    newestFirst (addWebhookEvent es ty aid thid et nowMs) ∧
    getRecentEvents none es = es.take 10 ∧
    getRecentEvents (some n) es = es.take (min n 100) := by
  refine ⟨runAdds_length_le calls,
          addWebhookEvent_length_le es ty aid thid et nowMs hlen,
          addWebhookEvent_head es ty aid thid et nowMs,
          addWebhookEvent_newestFirst es ty aid thid et nowMs hsorted hbound,
          ?_, ?_⟩
  · simp [getRecentEvents]
  · have hne : n ≠ 0 := Nat.pos_iff_ne_zero.mp hn
    simp [getRecentEvents, hne]

/-- Witness for C10 at a concrete one-event buffer and limit 5. -/
theorem webhook_buffer_invariant_witness :
    ([⟨"update", 9, 2, 40, 1000⟩] : List WebhookEvent).length ≤ 100 ∧
    newestFirst [⟨"update", 9, 2, 40, 1000⟩] ∧
    (∀ ev ∈ ([⟨"update", 9, 2, 40, 1000⟩] : List WebhookEvent), ev.timestamp ≤ (50 : Int)) ∧
    (0 : Nat) < 5 ∧
    ((runAdds []).length ≤ 100 ∧
     (addWebhookEvent [⟨"update", 9, 2, 40, 1000⟩] "create" 1 2 3 50).length ≤ 100 ∧
     (addWebhookEvent [⟨"update", 9, 2, 40, 1000⟩] "create" 1 2 3 50).head? =
       some ⟨"create", 1, 2, 50, 3 * 1000⟩ ∧
     newestFirst (addWebhookEvent [⟨"update", 9, 2, 40, 1000⟩] "create" 1 2 3 50) ∧
     getRecentEvents none [⟨"update", 9, 2, 40, 1000⟩] =
       ([⟨"update", 9, 2, 40, 1000⟩] : List WebhookEvent).take 10 ∧
     getRecentEvents (some 5) [⟨"update", 9, 2, 40, 1000⟩] =
       ([⟨"update", 9, 2, 40, 1000⟩] : List WebhookEvent).take (min 5 100)) :=
  ⟨by decide, by simp [newestFirst], by decide, by decide,
   webhook_buffer_invariant [] [⟨"update", 9, 2, 40, 1000⟩] "create" 1 2 3 50 5
     (by decide) (by simp [newestFirst]) (by decide) (by decide)⟩

end StravaMCP
